import Mathlib

/-!
Verification of the mijn-liander Home Assistant integration.

This file gives a shallow embedding of the token-lifecycle and polling
logic of `custom_components/mijn_liander/coordinator.py`, of the sensor
value mapping in `sensor.py` and `binary_sensor.py`, and of the
config-flow input schema in `config_flow.py`, and proves the testable
properties of the specification against that embedding.

Times are modelled as UTC timestamps in whole seconds (`Int`), JSON
values as the inductive `JVal`, and Python exceptions as explicit
`Except` errors so that the exception-handling structure of the source
can be reproduced faithfully.
-/

namespace MijnLiander

/-- JSON-like Python values: None, booleans, numbers, strings, lists and
dicts (dicts as association lists, first binding wins like a Python dict
with unique keys). -/
inductive JVal where
  | null
  | bool (b : Bool)
  | num (n : Int)
  | str (s : String)
  | arr (xs : List JVal)
  | obj (kvs : List (String × JVal))

/-- Python truthiness: None, False, 0, empty string, empty list and empty
dict are falsy, everything else is truthy. -/
def truthy : JVal → Bool
  | .null => false
  | .bool b => b
  | .num n => decide (n ≠ 0)
  | .str s => decide (s ≠ "")
  | .arr xs => !xs.isEmpty
  | .obj kvs => !kvs.isEmpty

/-- Python `isinstance(v, dict)`. -/
def isDict : JVal → Bool
  | .obj _ => true
  | _ => false

/-- Python `v.get(k, dflt)`: defaulted lookup on a dict; calling `.get`
on anything that is not a dict raises AttributeError. -/
def pyGet (v : JVal) (k : String) (dflt : JVal) : Except String JVal :=
  match v with
  | .obj kvs => .ok ((kvs.lookup k).getD dflt)
  | _ => .error "AttributeError: object has no attribute get"

/-- Python `v[0]`: first element of a list or string; indexing a dict
with 0 looks up the missing integer key (KeyError), indexing a scalar
raises TypeError. -/
def pyIndexZero (v : JVal) : Except String JVal :=
  match v with
  | .arr (x :: _) => .ok x
  | .arr [] => .error "IndexError: list index out of range"
  | .str s =>
    match s.toList with
    | c :: _ => .ok (.str (String.mk [c]))
    | [] => .error "IndexError: string index out of range"
  | .obj _ => .error "KeyError: 0"
  | _ => .error "TypeError: object is not subscriptable"

/-- Python `len(v)` for lists, strings and dicts; TypeError otherwise. -/
def pyLen (v : JVal) : Except String Int :=
  match v with
  | .arr xs => .ok (xs.length : Int)
  | .str s => .ok (s.length : Int)
  | .obj kvs => .ok (kvs.length : Int)
  | _ => .error "TypeError: object has no len"

/-- Python iteration `for x in v`: the elements of a list, the characters
of a string, the keys of a dict; TypeError on scalars. -/
def pyIter (v : JVal) : Except String (List JVal) :=
  match v with
  | .arr xs => .ok xs
  | .str s => .ok (s.toList.map fun c => .str (String.mk [c]))
  | .obj kvs => .ok (kvs.map fun kv => .str kv.1)
  | _ => .error "TypeError: object is not iterable"

/-- Python `str(v)` as used inside f-string interpolation. The fixture
data only ever interpolates strings and numbers; the container cases
stand in for the CPython repr, which no claim exercises. -/
def pyStr : JVal → String
  | .null => "None"
  | .bool true => "True"
  | .bool false => "False"
  | .num n => toString n
  | .str s => s
  | .arr _ => "[...]"
  | .obj _ => "\x7b...\x7d"

/-! ## Token expiry (`coordinator.py`, `is_token_expired`) -/

/-- Embedding of `LianderDataUpdateCoordinator.is_token_expired`.
`tokenExpiry` is `self._token_expiry` (None before any successful
renewal), `now` is `datetime.now(timezone.utc)`, both in seconds.
Returns `(warned, expired)`: whether the 30-minute warning was logged
and the boolean result of the method. -/
def is_token_expired (tokenExpiry : Option Int) (now : Int) : Bool × Bool :=
  match tokenExpiry with
  | none => (false, true)
  | some expiry =>
    (decide (expiry - 30 * 60 ≤ now), decide (expiry - 5 * 60 ≤ now))

/-! ## Token renewal (`coordinator.py`, `_async_renew_token`) -/

/-- Python exception types that can arise in the coordinator methods:
`UpdateFailed`, `aiohttp.ClientError` (including the response error from
`raise_for_status`), `ContentTypeError` from `response.json()`,
`KeyError`, `asyncio.TimeoutError`, `AttributeError` and `TypeError`.
All are subclasses of `Exception`. -/
inductive PyError where
  | updateFailed (msg : String)
  | clientError (msg : String)
  | contentTypeError (msg : String)
  | keyError (msg : String)
  | timeoutError
  | attributeError (msg : String)
  | typeError (msg : String)

/-- Python `str(e)`: the message carried by the exception. -/
def pyErrMsg : PyError → String
  | .updateFailed m => m
  | .clientError m => m
  | .contentTypeError m => m
  | .keyError m => m
  | .timeoutError => ""
  | .attributeError m => m
  | .typeError m => m

/-- Whether an escaped exception is of type `UpdateFailed`. -/
def isUpdateFailed : PyError → Bool
  | .updateFailed _ => true
  | _ => false

/-- Coordinator token state: `self._token` (a Python value, None before
authentication) and `self._token_expiry` (None before authentication,
otherwise a UTC timestamp in seconds). -/
structure TokenState where
  token : JVal
  token_expiry : Option Int

/-- Outcome of one HTTP exchange as seen by the coordinator: a timeout,
a network-level `aiohttp.ClientError`, or a response with its status and
the result of `response.json()` (whose error case is the
`ContentTypeError` raised on a non-JSON body). -/
inductive HttpResult where
  | timeoutError
  | clientError (msg : String)
  | response (status : Nat) (body : Except String JVal)

/-- Outcome of `jwt.decode(token, verify_signature=False)`: a
`jwt.DecodeError`, or the decoded claims dict. -/
inductive JwtDecodeResult where
  | decodeError (msg : String)
  | ok (claims : List (String × JVal))

/-- Environment of one `_async_renew_token` call: the login HTTP
exchange, the decode result for the token it returned, and the current
time used for the default expiry. -/
structure RenewEnv where
  http : HttpResult
  decode : JwtDecodeResult
  now : Int

/-- Body of the `try` block of `_async_renew_token`, raising the typed
exceptions as `Except` errors: `raise_for_status` raises a client error
on any status of 400 or more, then the 401 check, then `response.json()`,
then `login_response.get("jwt")`, the missing-token check, the inner
try around `jwt.decode` whose `except jwt.DecodeError` rewraps decode
errors as `UpdateFailed`, and finally the expiry computation, which
falls back to now plus one hour when the `exp` claim is absent or falsy
and raises TypeError if `datetime.fromtimestamp` gets a non-number. -/
def renewBody (env : RenewEnv) : Except PyError TokenState :=
  match env.http with
  | .timeoutError => .error .timeoutError
  | .clientError m => .error (.clientError m)
  | .response status body =>
    if 400 ≤ status then .error (.clientError ("HTTP " ++ toString status))
    else if status == 401 then .error (.updateFailed "Unauthorized, token expired.")
    else
      match body with
      | .error m => .error (.contentTypeError m)
      | .ok loginResponse =>
        match pyGet loginResponse "jwt" .null with
        | .error m => .error (.attributeError m)
        | .ok tok =>
          if !truthy tok then
            .error (.updateFailed "JWT token not found in login response.")
          else
            match env.decode with
            | .decodeError m => .error (.updateFailed ("JWT decode error: " ++ m))
            | .ok claims =>
              let expTimestamp := (claims.lookup "exp").getD .null
              if truthy expTimestamp then
                match expTimestamp with
                | .num t => .ok { token := tok, token_expiry := some t }
                | _ => .error (.typeError "fromtimestamp argument must be a number")
              else
                .ok { token := tok, token_expiry := some (env.now + 60 * 60) }

/-- Except clauses of `_async_renew_token`, in source order:
`(ContentTypeError, KeyError)`, then `aiohttp.ClientError`, then the
catch-all `Exception` (which also rewraps the `UpdateFailed` raised
inside the try block, the timeout, and any other exception). -/
def renewCatch : PyError → PyError
  | .contentTypeError _ => .updateFailed "Invalid JSON response during token renewal."
  | .keyError _ => .updateFailed "Invalid JSON response during token renewal."
  | .clientError m => .updateFailed ("Error renewing token: " ++ m)
  | e => .updateFailed ("Unexpected error renewing token: " ++ pyErrMsg e)

/-- Embedding of `LianderDataUpdateCoordinator._async_renew_token`: the
try body with every except clause applied to whatever it raises. -/
def _async_renew_token (env : RenewEnv) : Except PyError TokenState :=
  match renewBody env with
  | .ok st => .ok st
  | .error e => .error (renewCatch e)

/-! ## Valid-token guarantee (`coordinator.py`, `get_valid_token`) -/

/-- Python `v is None`. -/
def isNone : JVal → Bool
  | .null => true
  | _ => false

/-- Environment of one `get_valid_token` call: the renewal environments
of the up to two `_async_renew_token` calls, and the time at which
`is_token_expired` samples the clock. -/
structure ValidTokenEnv where
  renew1 : RenewEnv
  renew2 : RenewEnv
  now : Int

/-- Embedding of `LianderDataUpdateCoordinator.get_valid_token`: renew
when the stored token is falsy, renew again when the stored expiry is
within the 5-minute buffer, then raise `UpdateFailed` if the token is
None and otherwise return it together with the final state. -/
def get_valid_token (st : TokenState) (env : ValidTokenEnv) :
    Except PyError (TokenState × JVal) :=
  match (if !truthy st.token then _async_renew_token env.renew1 else .ok st) with
  | .error e => .error e
  | .ok s1 =>
    match (if (is_token_expired s1.token_expiry env.now).2
           then _async_renew_token env.renew2 else .ok s1) with
    | .error e => .error e
    | .ok s2 =>
      if isNone s2.token then
        .error (.updateFailed "Token is not available after renewal.")
      else .ok (s2, s2.token)

/-! ## Polling (`coordinator.py`, `_async_update_data`) -/

/-- Constant `API_AANSLUITINGEN_URL` from `const.py`. -/
def API_AANSLUITINGEN_URL : String :=
  "https://mijn-liander-gateway.web.liander.nl/api/v1/aansluitingen"

/-- An authenticated GET request issued by the coordinator: target URL
and the Authorization header it carries. -/
structure Request where
  url : String
  authorization : String

/-- Environment of one `_async_update_data` call: the environment of
the `get_valid_token` call and the outcome of the GET exchange. -/
structure UpdateEnv where
  tokenEnv : ValidTokenEnv
  fetch : HttpResult

/-- Body of the `try` block of `_async_update_data`: `raise_for_status`
on any status of 400 or more, the (unreachable) 401 and 503 checks,
then `response.json()`, then the parsed payload returned unchanged. -/
def fetchBody : HttpResult → Except PyError JVal
  | .timeoutError => .error .timeoutError
  | .clientError m => .error (.clientError m)
  | .response status body =>
    if 400 ≤ status then .error (.clientError ("HTTP " ++ toString status))
    else if status == 401 then .error (.updateFailed "Unauthorized, token expired.")
    else if status == 503 then .error (.updateFailed "Service unavailable, token expired.")
    else
      match body with
      | .error m => .error (.contentTypeError m)
      | .ok data => .ok data

/-- Except clauses of `_async_update_data`, in source order:
`ContentTypeError`, then `aiohttp.ClientError`, then `Exception`. -/
def updateCatch : PyError → PyError
  | .contentTypeError _ => .updateFailed "Invalid JSON response from Liander API."
  | .clientError m => .updateFailed ("Error fetching data from Liander API: " ++ m)
  | e => .updateFailed ("Unexpected error fetching data: " ++ pyErrMsg e)

/-- Embedding of `LianderDataUpdateCoordinator._async_update_data`:
obtain a valid token (outside the try block, so its `UpdateFailed`
propagates unchanged an no request is made), then issue the single GET
with the Bearer header and handle the response inside the try block.
Returns the list of GET requests issued and the result. -/
def _async_update_data (st : TokenState) (env : UpdateEnv) :
    List Request × Except PyError (TokenState × JVal) :=
  match get_valid_token st env.tokenEnv with
  | .error e => ([], .error e)
  | .ok (s, tok) =>
    ([{ url := API_AANSLUITINGEN_URL, authorization := "Bearer " ++ pyStr tok }],
      match fetchBody env.fetch with
      | .ok data => .ok (s, data)
      | .error e => .error (updateCatch e))

/-! ## Sensor field mapping (`sensor.py`, `LianderSensor.native_value`
and `binary_sensor.py`, `LianderBinarySensor.is_on`) -/

/-- Control flow of one iteration of a Python `for` body: an early
`return r`, or fall-through to the next iteration carrying `s`. -/
inductive LoopRes (ρ σ : Type) where
  | ret (r : ρ)
  | cont (s : σ)

/-- Python `v.get(k, dflt)` under an `isinstance(v, dict)` guard, where
the lookup is total; the non-dict case is unreachable at its use site. -/
def dGet (v : JVal) (k : String) (dflt : JVal) : JVal :=
  match v with
  | .obj kvs => (kvs.lookup k).getD dflt
  | _ => dflt

/-- Python `str.strip()`: drop leading and trailing whitespace. -/
def pyStrip (s : String) : String :=
  .mk (((s.toList.dropWhile (fun c => c.isWhitespace)).reverse.dropWhile
    (fun c => c.isWhitespace)).reverse)

/-- The address f-string of `native_value`: street, space, house number,
addition, space, postal code, space, city, stripped. The five parts are
the defaulted lookups on the (guarded) address dict. -/
def formatAddress (address : JVal) : String :=
  pyStrip (pyStr (dGet address "straat" (.str "")) ++ " "
    ++ pyStr (dGet address "huisnummer" (.str ""))
    ++ pyStr (dGet address "toevoeging" (.str "")) ++ " "
    ++ pyStr (dGet address "postcode" (.str "")) ++ " "
    ++ pyStr (dGet address "plaats" (.str "")))

/-- The `elif` chain of `native_value` assigning `value` from the first
elektra connection record. -/
def elektraValue (key : String) (elektra : JVal) (v0 : JVal) : Except String JVal :=
  if key == "electricity_ean" then pyGet elektra "ean" .null
  else if key == "connection_capacity" then pyGet elektra "aansluitwaarde" .null
  else if key == "status" then pyGet elektra "status" .null
  else if key == "network_costs" then pyGet elektra "netwerkkosten" .null
  else if key == "maximum_power" then pyGet elektra "maximaalVermogen" .null
  else .ok v0

/-- The `elif` chain of `native_value` assigning `value` from the first
meter record. -/
def meterValue (key : String) (meter : JVal) (v1 : JVal) : Except String JVal :=
  if key == "meter_number" then pyGet meter "meternummer" .null
  else if key == "number_of_registers" then pyGet meter "aantalTelwerken" .null
  else if key == "number_of_phases" then pyGet meter "aantalFasen" .null
  else .ok v1

/-- The `if meters:` block of `native_value`: the meter count, then the
unconditional `meters[0]`, then the meter-field chain. -/
def metersValue (key : String) (meters : JVal) (v1 : JVal) : Except String JVal :=
  match (if key == "number_of_meters" then (pyLen meters).map JVal.num else .ok v1) with
  | .error e => .error e
  | .ok v2 =>
    match pyIndexZero meters with
    | .error e => .error e
    | .ok meter => meterValue key meter v2

/-- One iteration of the `for account in data` body of `native_value`:
the address early return under the `address and isinstance(address,
dict)` guard, then the elektra block, ending in `return value` when the
value is not None and fall-through otherwise. -/
def nativeValueStep (key : String) (account : JVal) (v0 : JVal) :
    Except String (LoopRes JVal JVal) :=
  match pyGet account "adres" (.obj []) with
  | .error e => .error e
  | .ok address =>
    if truthy address && isDict address && key == "address" then
      .ok (.ret (.str (formatAddress address)))
    else
      match pyGet account "aansluitingen" (.obj []) with
      | .error e => .error e
      | .ok aansl =>
        match pyGet aansl "elektra" (.arr []) with
        | .error e => .error e
        | .ok elektraConnections =>
          if truthy elektraConnections then
            match pyIndexZero elektraConnections with
            | .error e => .error e
            | .ok elektra =>
              match elektraValue key elektra v0 with
              | .error e => .error e
              | .ok v1 =>
                match pyGet elektra "meters" (.arr []) with
                | .error e => .error e
                | .ok meters =>
                  match (if truthy meters then metersValue key meters v1 else .ok v1) with
                  | .error e => .error e
                  | .ok v2 => .ok (if isNone v2 then .cont v2 else .ret v2)
          else .ok (.cont v0)

/-- The `for account in data` loop of `native_value`; after the loop the
property returns None. -/
def nativeValueLoop (key : String) : List JVal → JVal → Except String JVal
  | [], _ => .ok .null
  | account :: rest, v =>
    match nativeValueStep key account v with
    | .error e => .error e
    | .ok (.ret r) => .ok r
    | .ok (.cont v1) => nativeValueLoop key rest v1

/-- Embedding of `LianderSensor.native_value`: `value = None`, the
truthiness guard on the coordinator data, the account loop, and the
final `return None`. -/
def native_value (key : String) (data : JVal) : Except String JVal :=
  if truthy data then
    match pyIter data with
    | .error e => .error e
    | .ok accounts => nativeValueLoop key accounts .null
  else .ok .null

/-- The `if`/`elif` chain of `is_on` dispatching on the entity key and
returning the defaulted flag lookups on the first elektra record or the
first meter record. -/
def isOnKeyChain (key : String) (elektra meters : JVal) : Except String (LoopRes JVal Unit) :=
  if key == "contract" then
    (pyGet elektra "contract" (.bool false)).map .ret
  else if key == "toestemmingVoorUitlezen" then
    (pyGet elektra "toestemmingVoorUitlezen" (.bool false)).map .ret
  else if key == "slimmeMeter" && truthy meters then
    match pyIndexZero meters with
    | .error e => .error e
    | .ok meter => (pyGet meter "slimmeMeter" (.bool false)).map .ret
  else if key == "geschiktVoorTerugleveren" && truthy meters then
    match pyIndexZero meters with
    | .error e => .error e
    | .ok meter => (pyGet meter "geschiktVoorTerugleveren" (.bool false)).map .ret
  else if key == "geschiktVoorDubbeltarief" && truthy meters then
    match pyIndexZero meters with
    | .error e => .error e
    | .ok meter => (pyGet meter "geschiktVoorDubbeltarief" (.bool false)).map .ret
  else if key == "levertTerug" then
    (pyGet elektra "levertTerug" (.bool false)).map .ret
  else .ok (.cont ())

/-- One iteration of the `for account in data` body of
`LianderBinarySensor.is_on`: the elektra lookup, `meters`, then the
key chain. -/
def isOnStep (key : String) (account : JVal) : Except String (LoopRes JVal Unit) :=
  match pyGet account "aansluitingen" (.obj []) with
  | .error e => .error e
  | .ok aansl =>
    match pyGet aansl "elektra" (.arr []) with
    | .error e => .error e
    | .ok elektraConnections =>
      if truthy elektraConnections then
        match pyIndexZero elektraConnections with
        | .error e => .error e
        | .ok elektra =>
          match pyGet elektra "meters" (.arr []) with
          | .error e => .error e
          | .ok meters => isOnKeyChain key elektra meters
      else .ok (.cont ())

/-- The account loop of `is_on`; after the loop the property returns
False. -/
def isOnLoop (key : String) : List JVal → Except String JVal
  | [] => .ok (.bool false)
  | account :: rest =>
    match isOnStep key account with
    | .error e => .error e
    | .ok (.ret r) => .ok r
    | .ok (.cont _) => isOnLoop key rest

/-- Embedding of `LianderBinarySensor.is_on`: `if not data: return
False`, then the account loop. -/
def is_on (key : String) (data : JVal) : Except String JVal :=
  if truthy data then
    match pyIter data with
    | .error e => .error e
    | .ok accounts => isOnLoop key accounts
  else .ok (.bool false)

/-- The `example_data` fixture of `coordinator.py`, verbatim. -/
def example_data : JVal :=
  .arr [
    .obj [
      ("adres", .obj [
        ("postcode", .str "1000 AAB"),
        ("straat", .str "Mijnstraat"),
        ("huisnummer", .str "1"),
        ("toevoeging", .str ""),
        ("plaats", .str "AMSTERDAM")]),
      ("aansluitingen", .obj [
        ("elektra", .arr [
          .obj [
            ("type", .str "ElektraAansluiting"),
            ("ean", .str "123456789012345678"),
            ("aansluitwaarde", .str "3x25A"),
            ("status", .str "In bedrijf"),
            ("netwerkkosten", .str "400.92"),
            ("meters", .arr [
              .obj [
                ("type", .str "Elektrameter"),
                ("meternummer", .str "E0000000000000000"),
                ("aantalTelwerken", .num 4),
                ("aantalFasen", .str "3")]]),
            ("maximaalVermogen", .str "17")]]),
        ("gas", .arr [])])]]

/-! ## Totality of the sensor properties (C10) -/

/-- A flag field is absent or holds a boolean. -/
def boolIfPresent (kvs : List (String × JVal)) (k : String) : Bool :=
  match kvs.lookup k with
  | none => true
  | some (.bool _) => true
  | some _ => false

/-- Shape of the first meter record as the sensors access it: a dict
whose binary flags, when present, are booleans. -/
def wfMeter0 : JVal → Bool
  | .obj kvs =>
    boolIfPresent kvs "slimmeMeter" && boolIfPresent kvs "geschiktVoorTerugleveren"
      && boolIfPresent kvs "geschiktVoorDubbeltarief"
  | _ => false

/-- Shape of the meters field: a list, empty or with a well-shaped
first record. -/
def wfMeters : JVal → Bool
  | .arr [] => true
  | .arr (m :: _) => wfMeter0 m
  | _ => false

/-- Shape of the first elektra connection record: a dict whose meters
field (defaulted to the empty list) is well-shaped and whose binary
flags, when present, are booleans. -/
def wfElektra0 : JVal → Bool
  | .obj kvs =>
    wfMeters ((kvs.lookup "meters").getD (.arr []))
      && boolIfPresent kvs "contract" && boolIfPresent kvs "toestemmingVoorUitlezen"
      && boolIfPresent kvs "levertTerug"
  | _ => false

/-- Shape of the elektra connection list: empty or with a well-shaped
first record. -/
def wfElektraList : JVal → Bool
  | .arr [] => true
  | .arr (e :: _) => wfElektra0 e
  | _ => false

/-- Shape of one account record as the sensors access it: a dict whose
aansluitingen field, when present, is a dict with a well-shaped elektra
list (defaulted to the empty list); the adres field may be anything
because its dict access sits behind an isinstance guard. -/
def wfAccount : JVal → Bool
  | .obj kvs =>
    match kvs.lookup "aansluitingen" with
    | none => true
    | some (.obj kvs2) => wfElektraList ((kvs2.lookup "elektra").getD (.arr []))
    | some _ => false
  | _ => false

/-- Shape of the coordinator data as the sensors access it: None or a
list of well-shaped account records (which covers the empty list and
records with missing or empty fields). -/
def wfData : JVal → Bool
  | .null => true
  | .arr accounts => accounts.all wfAccount
  | _ => false

/-! ## Config-flow input schema (`config_flow.py`) -/

/-- Raw user input to the config-flow form: the two required credential
fields and the optional timeout field, as an integer after the
voluptuous coercion. -/
structure UserInput where
  username : Option String
  password : Option String
  timeout : Option Int

/-- Form data accepted by the schema. -/
structure ValidatedInput where
  username : String
  password : String
  timeout : Int

/-- Embedding of `cv.positive_int`: coerce to int, then Range(min=0). -/
def positive_int (n : Int) : Except String Int :=
  if 0 ≤ n then .ok n else .error "value must be at least 0"

/-- Embedding of the timeout validator `vol.All(cv.positive_int,
vol.Range(min=1, max=30))`. -/
def timeoutValidator (n : Int) : Except String Int :=
  match positive_int n with
  | .error e => .error e
  | .ok n => if 1 ≤ n ∧ n ≤ 30 then .ok n else .error "value must be in range 1 to 30"

/-- Embedding of `STEP_USER_DATA_SCHEMA`: required username and password
strings, optional timeout defaulting to 5 and validated into 1..30. -/
def STEP_USER_DATA_SCHEMA (inp : UserInput) : Except String ValidatedInput :=
  match inp.username with
  | none => .error "required key not provided: username"
  | some u =>
    match inp.password with
    | none => .error "required key not provided: password"
    | some p =>
      match inp.timeout with
      | none => .ok { username := u, password := p, timeout := 5 }
      | some t =>
        match timeoutValidator t with
        | .error e => .error e
        | .ok t2 => .ok { username := u, password := p, timeout := t2 }

/-- Outcome of the login validation `_validate_input`. -/
inductive ValidationResult where
  | success (jwt : String)
  | error (code : String)

/-- Outcome of one `async_step_user` call. -/
inductive FlowResult where
  | createEntry (title : String) (timeout : Int) (jwt : String)
  | abort (reason : String)
  | showForm (errors : List (String × String))

/-- The `map_error_to_message` table of the config flow. -/
def map_error_to_message (code : String) : String :=
  if code == "invalid_auth" then "Invalid username or password."
  else if code == "service_unavailable" then
    "The service is currently unavailable. Please try again later."
  else if code == "network_error" then "Network error. Check your internet connection."
  else if code == "invalid_timeout" then
    "The timeout value is invalid. Please provide a value between 1 and 30 seconds."
  else if code == "already_configured" then
    "This entry is already configured. Please use a different username or update the existing configuration."
  else if code == "unknown_error" then "An unknown error occurred. Please try again."
  else "unknown_error"

/-- Embedding of `ConfigFlow.async_step_user`: with no input, show the
empty form; on schema failure show the form with the invalid-input
error; on validation failure show the form with the mapped error; on
success abort when an entry exists and otherwise create the entry. -/
def async_step_user (userInput : Option UserInput) (validation : ValidationResult)
    (alreadyConfigured : Bool) : FlowResult :=
  match userInput with
  | none => .showForm []
  | some inp =>
    match STEP_USER_DATA_SCHEMA inp with
    | .error _ => .showForm [("base", "invalid_input")]
    | .ok v =>
      match validation with
      | .success jwt =>
        if alreadyConfigured then .abort "already_configured"
        else .createEntry v.username v.timeout jwt
      | .error code => .showForm [("base", map_error_to_message code)]

/-!
## Theorems

The claim theorems, their witnesses and counterexamples, and the
helper lemmas they share.
-/

/-- C1: with a stored expiry, `is_token_expired` returns True exactly
when the current time has reached expiry minus the 5-minute buffer, and
False otherwise. -/
theorem token_expired_iff_within_buffer (expiry now : Int) :
    (is_token_expired (some expiry) now).2 = true ↔ expiry - 5 * 60 ≤ now := by
  simp [is_token_expired]

/-- C4: when now lies in the window from 30 minutes before expiry up to
(but excluding) 5 minutes before expiry, `is_token_expired` logs the
about-to-expire warning and still returns False. -/
theorem token_expiring_warns_but_usable (expiry now : Int)
    (h30 : expiry - 30 * 60 ≤ now) (h5 : now < expiry - 5 * 60) :
    is_token_expired (some expiry) now = (true, false) := by
  simp only [is_token_expired, Prod.mk.injEq, decide_eq_true_eq, decide_eq_false_iff_not]
  omega

/-- Witness for C4 at expiry 2000, now 300. -/
theorem token_expiring_warns_but_usable_witness :
    is_token_expired (some 2000) 300 = (true, false) :=
  token_expiring_warns_but_usable 2000 300 (by decide) (by decide)

/-- C9: without a stored expiry time, `is_token_expired` returns True,
so a token with unknown expiry is always treated as expired. -/
theorem token_without_expiry_is_expired (now : Int) :
    (is_token_expired none now).2 = true := rfl

/-- Every exception escaping `_async_renew_token` is `UpdateFailed`. -/
theorem renew_error_isUpdateFailed (env : RenewEnv) (e : PyError)
    (h : _async_renew_token env = .error e) : isUpdateFailed e = true := by
  unfold _async_renew_token at h
  cases hb : renewBody env with
  | ok st => rw [hb] at h; exact absurd h (by simp)
  | error e0 =>
    rw [hb] at h
    simp only [Except.error.injEq] at h
    subst h
    cases e0 <;> simp [renewCatch, isUpdateFailed]

/-- C2: every failure cause during token renewal (timeout, network or
HTTP-status error, non-JSON body, missing jwt field, JWT decode error,
or any other exception) makes `_async_renew_token` fail with the single
uniform `UpdateFailed` error type; no other exception type escapes. -/
theorem renew_failure_is_uniformly_UpdateFailed (env : RenewEnv) (e : PyError)
    (h : _async_renew_token env = .error e) : isUpdateFailed e = true :=
  renew_error_isUpdateFailed env e h

/-- Witness for C2: a concrete network error escapes as `UpdateFailed`. -/
theorem renew_failure_is_uniformly_UpdateFailed_witness :
    isUpdateFailed (.updateFailed "Error renewing token: connection reset") = true :=
  renew_failure_is_uniformly_UpdateFailed
    ⟨.clientError "connection reset", .decodeError "", 0⟩
    (.updateFailed "Error renewing token: connection reset") rfl

/-- C3 counterexample: a login response whose jwt decodes to claims with
no embedded `exp` claim does not raise; `_async_renew_token` completes,
storing the token with a default expiry of now plus one hour (here now
is 100, so expiry 3700). -/
theorem renew_missing_exp_claim_succeeds :
    _async_renew_token
      ⟨.response 200 (.ok (.obj [("jwt", .str "tok")])), .ok [], 100⟩ =
      .ok { token := .str "tok", token_expiry := some 3700 } := rfl

/-- C3 amended: a login response missing the jwt string itself raises
`UpdateFailed` and no token renewal completes, but a missing embedded
expiry claim does not fail: the renewal completes with the token stored
and a default expiry of now plus one hour. -/
theorem renew_missing_jwt_fails_missing_exp_defaults
    (status : Nat) (kvs : List (String × JVal)) (decode : JwtDecodeResult) (now : Int)
    (hst : status < 400) (hne : status ≠ 401) :
    (truthy ((kvs.lookup "jwt").getD .null) = false →
      ∃ m, _async_renew_token ⟨.response status (.ok (.obj kvs)), decode, now⟩ =
        .error (.updateFailed m)) ∧
    (∀ tok claims, (kvs.lookup "jwt").getD .null = tok → truthy tok = true →
      decode = .ok claims → (claims.lookup "exp").getD .null = .null →
      _async_renew_token ⟨.response status (.ok (.obj kvs)), decode, now⟩ =
        .ok { token := tok, token_expiry := some (now + 60 * 60) }) := by
  have h400 : ¬ (400 ≤ status) := by omega
  have h401 : (status == 401) = false := by
    simp only [beq_eq_false_iff_ne, ne_eq]
    exact hne
  constructor
  · intro hfalsy
    refine ⟨"Unexpected error renewing token: JWT token not found in login response.", ?_⟩
    simp [_async_renew_token, renewBody, pyGet, h400, h401, hfalsy, renewCatch, pyErrMsg]
  · intro tok claims htok htruthy hdec hexp
    subst hdec
    have hnull : truthy .null = false := rfl
    simp [_async_renew_token, renewBody, pyGet, h400, h401, htok, htruthy, hexp, hnull]

/-- Witness for the amended C3 at a concrete empty login body and a
concrete body with a jwt but no exp claim. -/
theorem renew_missing_jwt_fails_missing_exp_defaults_witness :
    (∃ m, _async_renew_token ⟨.response 200 (.ok (.obj [])), .ok [], 50⟩ =
        .error (.updateFailed m)) ∧
    _async_renew_token ⟨.response 200 (.ok (.obj [("jwt", .str "t")])), .ok [], 50⟩ =
      .ok { token := .str "t", token_expiry := some 3650 } := by
  have h := renew_missing_jwt_fails_missing_exp_defaults 200 [("jwt", .str "t")]
    (.ok []) 50 (by decide) (by decide)
  have h0 := renew_missing_jwt_fails_missing_exp_defaults 200 []
    (.ok []) 50 (by decide) (by decide)
  exact ⟨h0.1 rfl, h.2 (.str "t") [] rfl rfl rfl rfl⟩

theorem isNone_false_ne_null (v : JVal) (h : isNone v = false) : v ≠ JVal.null := by
  cases v <;> simp_all [isNone]

theorem if_renew_error (c : Bool) (renv : RenewEnv) (s0 : TokenState) (e : PyError)
    (h : (if c then _async_renew_token renv else .ok s0) = .error e) :
    isUpdateFailed e = true := by
  cases c with
  | false => simp at h
  | true => exact renew_error_isUpdateFailed renv e (by simpa using h)

/-- Every exception escaping `get_valid_token` is `UpdateFailed`. -/
theorem get_valid_token_error (st : TokenState) (env : ValidTokenEnv) (e : PyError)
    (h : get_valid_token st env = .error e) : isUpdateFailed e = true := by
  unfold get_valid_token at h
  cases h1 : (if !truthy st.token then _async_renew_token env.renew1 else .ok st) with
  | error e1 =>
    simp only [h1, Except.error.injEq] at h
    subst h
    exact if_renew_error _ _ _ _ h1
  | ok s1 =>
    simp only [h1] at h
    cases h2 : (if (is_token_expired s1.token_expiry env.now).2
                then _async_renew_token env.renew2 else .ok s1) with
    | error e2 =>
      simp only [h2, Except.error.injEq] at h
      subst h
      exact if_renew_error _ _ _ _ h2
    | ok s2 =>
      simp only [h2] at h
      by_cases hn : isNone s2.token = true
      · simp only [hn, if_true, Except.error.injEq] at h
        subst h
        rfl
      · simp [hn] at h

/-- Every token returned by `get_valid_token` is the token of the final
state and is not None. -/
theorem get_valid_token_ok (st : TokenState) (env : ValidTokenEnv)
    (s : TokenState) (t : JVal) (h : get_valid_token st env = .ok (s, t)) :
    s.token = t ∧ t ≠ JVal.null := by
  unfold get_valid_token at h
  cases h1 : (if !truthy st.token then _async_renew_token env.renew1 else .ok st) with
  | error e1 => simp only [h1] at h; simp at h
  | ok s1 =>
    simp only [h1] at h
    cases h2 : (if (is_token_expired s1.token_expiry env.now).2
                then _async_renew_token env.renew2 else .ok s1) with
    | error e2 => simp only [h2] at h; simp at h
    | ok s2 =>
      simp only [h2] at h
      by_cases hn : isNone s2.token = true
      · simp [hn] at h
      · simp only [hn, Bool.false_eq_true, if_false, Except.ok.injEq, Prod.mk.injEq] at h
        obtain ⟨hs, ht⟩ := h
        subst hs
        refine ⟨ht, ?_⟩
        subst ht
        exact isNone_false_ne_null _ (by simpa using hn)

/-- C6 counterexample: starting with no token, a renewal whose fresh
token carries an expiry of 100 while the clock also reads 100 makes
`get_valid_token` return that token even though `is_token_expired` is
True for the stored expiry at the moment of return. -/
theorem get_valid_token_returns_expired_token :
    get_valid_token ⟨.null, none⟩
      ⟨⟨.response 200 (.ok (.obj [("jwt", .str "tok")])), .ok [("exp", .num 100)], 100⟩,
       ⟨.response 200 (.ok (.obj [("jwt", .str "tok")])), .ok [("exp", .num 100)], 100⟩,
       100⟩ =
      .ok (⟨.str "tok", some 100⟩, .str "tok") ∧
    (is_token_expired (some 100) 100).2 = true := ⟨rfl, rfl⟩

/-- C6 amended: every token returned by `get_valid_token` is non-null
at the moment of return, and every failure (including no token being
available after renewal) raises `UpdateFailed`; but the returned token
is not always non-expired: when the freshly renewed token expires
within the 5-minute buffer it is returned without a further expiry
check. -/
theorem get_valid_token_nonnull_or_UpdateFailed (st : TokenState) (env : ValidTokenEnv) :
    (∀ s t, get_valid_token st env = .ok (s, t) → t ≠ JVal.null) ∧
    (∀ e, get_valid_token st env = .error e → isUpdateFailed e = true) :=
  ⟨fun s t h => (get_valid_token_ok st env s t h).2,
   fun e h => get_valid_token_error st env e h⟩

/-- Witness for the amended C6 at the concrete renewal scenario. -/
theorem get_valid_token_nonnull_or_UpdateFailed_witness :
    (JVal.str "tok" : JVal) ≠ JVal.null :=
  (get_valid_token_nonnull_or_UpdateFailed ⟨.null, none⟩
      ⟨⟨.response 200 (.ok (.obj [("jwt", .str "tok")])), .ok [("exp", .num 100)], 100⟩,
       ⟨.response 200 (.ok (.obj [("jwt", .str "tok")])), .ok [("exp", .num 100)], 100⟩,
       100⟩).1 ⟨.str "tok", some 100⟩ (.str "tok") rfl

theorem updateCatch_isUpdateFailed (e : PyError) :
    isUpdateFailed (updateCatch e) = true := by
  cases e <;> rfl

/-- C7: on each update, every failure surfaces as `UpdateFailed`; once a
valid token is obtained (renewing if needed) exactly one authenticated
GET is issued carrying that token as a Bearer header, and a successful
response yields the parsed JSON payload unchanged (no partial result);
when no token is obtained, no request at all is issued and the token
failure propagates. -/
theorem update_data_one_get_payload_or_UpdateFailed (st : TokenState) (env : UpdateEnv) :
    (∀ e, (_async_update_data st env).2 = .error e → isUpdateFailed e = true) ∧
    (∀ s tok, get_valid_token st env.tokenEnv = .ok (s, tok) →
      (_async_update_data st env).1 =
        [{ url := API_AANSLUITINGEN_URL, authorization := "Bearer " ++ pyStr tok }] ∧
      (∀ status data, env.fetch = .response status (.ok data) → status < 400 →
        (_async_update_data st env).2 = .ok (s, data))) ∧
    (∀ e, get_valid_token st env.tokenEnv = .error e →
      _async_update_data st env = ([], .error e)) := by
  cases hg : get_valid_token st env.tokenEnv with
  | error e0 =>
    refine ⟨?_, ?_, ?_⟩
    · intro e h
      unfold _async_update_data at h
      simp only [hg, Except.error.injEq] at h
      subst h
      exact get_valid_token_error st env.tokenEnv e0 hg
    · intro s tok h
      exact absurd h (by simp)
    · intro e h
      simp only [Except.error.injEq] at h
      subst h
      unfold _async_update_data
      simp only [hg]
  | ok p =>
    obtain ⟨s0, tok0⟩ := p
    refine ⟨?_, ?_, ?_⟩
    · intro e h
      unfold _async_update_data at h
      simp only [hg] at h
      cases hf : fetchBody env.fetch with
      | ok data => simp only [hf] at h; simp at h
      | error e1 =>
        simp only [hf, Except.error.injEq] at h
        subst h
        exact updateCatch_isUpdateFailed e1
    · intro s tok h
      simp only [Except.ok.injEq, Prod.mk.injEq] at h
      obtain ⟨hs, ht⟩ := h
      subst hs
      subst ht
      constructor
      · unfold _async_update_data
        simp only [hg]
      · intro status data hf hlt
        have h400 : ¬ (400 ≤ status) := by omega
        have h401 : (status == 401) = false := by
          simp only [beq_eq_false_iff_ne, ne_eq]; omega
        have h503 : (status == 503) = false := by
          simp only [beq_eq_false_iff_ne, ne_eq]; omega
        unfold _async_update_data
        simp only [hg, hf, fetchBody, h400, h401, h503, if_false]
        simp
    · intro e h
      exact absurd h (by simp)

/-- Witness for C7: with a fresh non-expired token and a 200 JSON
response, one Bearer GET is issued and the payload comes back
unchanged. -/
theorem update_data_one_get_payload_or_UpdateFailed_witness :
    (_async_update_data ⟨.str "tok", some 10000⟩
        ⟨⟨⟨.timeoutError, .decodeError "", 0⟩, ⟨.timeoutError, .decodeError "", 0⟩, 0⟩,
          .response 200 (.ok (.arr []))⟩).1 =
      [{ url := API_AANSLUITINGEN_URL, authorization := "Bearer " ++ pyStr (.str "tok") }] ∧
    (_async_update_data ⟨.str "tok", some 10000⟩
        ⟨⟨⟨.timeoutError, .decodeError "", 0⟩, ⟨.timeoutError, .decodeError "", 0⟩, 0⟩,
          .response 200 (.ok (.arr []))⟩).2 =
      .ok (⟨.str "tok", some 10000⟩, .arr []) := by
  have h := (update_data_one_get_payload_or_UpdateFailed ⟨.str "tok", some 10000⟩
    ⟨⟨⟨.timeoutError, .decodeError "", 0⟩, ⟨.timeoutError, .decodeError "", 0⟩, 0⟩,
      .response 200 (.ok (.arr []))⟩).2.1 ⟨.str "tok", some 10000⟩ (.str "tok") rfl
  exact ⟨h.1, h.2 200 (.arr []) rfl (by decide)⟩

/-- C5: on the `example_data` fixture the sensor field mapping
reproduces the literal fixture values for the address, electricity-EAN,
connection-capacity, status and number-of-meters sensors. -/
theorem sensor_values_on_example_data :
    native_value "address" example_data = .ok (.str "Mijnstraat 1 1000 AAB AMSTERDAM") ∧
    native_value "electricity_ean" example_data = .ok (.str "123456789012345678") ∧
    native_value "connection_capacity" example_data = .ok (.str "3x25A") ∧
    native_value "status" example_data = .ok (.str "In bedrijf") ∧
    native_value "number_of_meters" example_data = .ok (.num 1) :=
  ⟨rfl, rfl, rfl, rfl, rfl⟩

/-- C10 counterexample: for the coordinator data value
`[{"aansluitingen": 5}]` both `native_value` and `is_on` raise (the
defaulted `.get` lookup is called on the non-dict 5), so neither
property totally evaluates on every coordinator data value. -/
theorem sensor_properties_raise_on_nondict_field :
    native_value "address" (.arr [.obj [("aansluitingen", .num 5)]]) =
      .error "AttributeError: object has no attribute get" ∧
    is_on "contract" (.arr [.obj [("aansluitingen", .num 5)]]) =
      .error "AttributeError: object has no attribute get" := ⟨rfl, rfl⟩

theorem boolIfPresent_getD (kvs : List (String × JVal)) (k : String)
    (h : boolIfPresent kvs k = true) :
    ∃ b, (kvs.lookup k).getD (.bool false) = .bool b := by
  unfold boolIfPresent at h
  cases hl : kvs.lookup k with
  | none => exact ⟨false, by simp [hl]⟩
  | some v =>
    rw [hl] at h
    cases v with
    | bool b => exact ⟨b, by simp [hl]⟩
    | null => simp at h
    | num n => simp at h
    | str s => simp at h
    | arr xs => simp at h
    | obj kvs2 => simp at h

theorem elektraValue_obj_ok (key : String) (ekvs : List (String × JVal)) (v0 : JVal) :
    ∃ v, elektraValue key (.obj ekvs) v0 = .ok v := by
  unfold elektraValue
  split_ifs <;> exact ⟨_, rfl⟩

theorem meterValue_obj_ok (key : String) (mkvs : List (String × JVal)) (v1 : JVal) :
    ∃ v, meterValue key (.obj mkvs) v1 = .ok v := by
  unfold meterValue
  split_ifs <;> exact ⟨_, rfl⟩

theorem metersValue_ok (key : String) (m : JVal) (rest : List JVal) (v1 : JVal)
    (h : wfMeter0 m = true) :
    ∃ v, metersValue key (.arr (m :: rest)) v1 = .ok v := by
  cases m with
  | obj mkvs =>
    unfold metersValue
    cases hk : (key == "number_of_meters") with
    | false =>
      simp only [hk, Bool.false_eq_true, if_false, pyIndexZero]
      exact meterValue_obj_ok key mkvs v1
    | true =>
      simp only [hk, if_true, pyLen, Except.map, pyIndexZero]
      exact meterValue_obj_ok key mkvs _
  | null => simp [wfMeter0] at h
  | bool b => simp [wfMeter0] at h
  | num n => simp [wfMeter0] at h
  | str s => simp [wfMeter0] at h
  | arr xs => simp [wfMeter0] at h

theorem nativeValueStep_ok (key : String) (account : JVal) (v0 : JVal)
    (h : wfAccount account = true) : ∃ r, nativeValueStep key account v0 = .ok r := by
  cases account with
  | null => simp [wfAccount] at h
  | bool b => simp [wfAccount] at h
  | num n => simp [wfAccount] at h
  | str s => simp [wfAccount] at h
  | arr xs => simp [wfAccount] at h
  | obj kvs =>
    unfold nativeValueStep
    simp only [pyGet]
    split
    · exact ⟨_, rfl⟩
    · simp only [wfAccount] at h
      cases ha : kvs.lookup "aansluitingen" with
      | none =>
        simp [ha, truthy]
      | some v =>
        rw [ha] at h
        cases v with
        | null => simp at h
        | bool b => simp at h
        | num n => simp at h
        | str s => simp at h
        | arr ys => simp at h
        | obj kvs2 =>
          simp only [ha, Option.getD_some] at h ⊢
          cases hel : kvs2.lookup "elektra" with
          | none => simp [hel, truthy]
          | some ev =>
            rw [hel] at h
            simp only [Option.getD_some] at h
            cases ev with
            | null => simp [wfElektraList] at h
            | bool b => simp [wfElektraList] at h
            | num n => simp [wfElektraList] at h
            | str s => simp [wfElektraList] at h
            | obj zs => simp [wfElektraList] at h
            | arr es =>
              cases es with
              | nil => simp [hel, truthy]
              | cons e erest =>
                simp only [wfElektraList] at h
                cases e with
                | null => simp [wfElektra0] at h
                | bool b => simp [wfElektra0] at h
                | num n => simp [wfElektra0] at h
                | str s => simp [wfElektra0] at h
                | arr zs => simp [wfElektra0] at h
                | obj ekvs =>
                  simp only [wfElektra0, Bool.and_eq_true] at h
                  obtain ⟨⟨⟨hm, _⟩, _⟩, _⟩ := h
                  obtain ⟨v1, hv1⟩ := elektraValue_obj_ok key ekvs v0
                  simp only [hel, pyGet, truthy, List.isEmpty, Bool.not_false,
                    if_true, pyIndexZero, hv1]
                  cases hml : ekvs.lookup "meters" with
                  | none =>
                    simp [hml, truthy, hv1]
                  | some mv =>
                    rw [hml] at hm
                    simp only [Option.getD_some] at hm
                    cases mv with
                    | null => simp [wfMeters] at hm
                    | bool b => simp [wfMeters] at hm
                    | num n => simp [wfMeters] at hm
                    | str s => simp [wfMeters] at hm
                    | obj zs => simp [wfMeters] at hm
                    | arr ms =>
                      cases ms with
                      | nil =>
                        simp [hml, truthy, hv1]
                      | cons m mrest =>
                        simp only [wfMeters] at hm
                        obtain ⟨v2, hv2⟩ := metersValue_ok key m mrest v1 hm
                        simp [hml, truthy, hv1, hv2]

theorem isOnKeyChain_falsy_meters_ok (key : String) (ekvs : List (String × JVal))
    (meters : JVal) (hmt : truthy meters = false)
    (hc : boolIfPresent ekvs "contract" = true)
    (ht : boolIfPresent ekvs "toestemmingVoorUitlezen" = true)
    (hl : boolIfPresent ekvs "levertTerug" = true) :
    isOnKeyChain key (.obj ekvs) meters = .ok (.cont ()) ∨
      ∃ b, isOnKeyChain key (.obj ekvs) meters = .ok (.ret (.bool b)) := by
  obtain ⟨bc, hbc⟩ := boolIfPresent_getD ekvs "contract" hc
  obtain ⟨bt, hbt⟩ := boolIfPresent_getD ekvs "toestemmingVoorUitlezen" ht
  obtain ⟨bl, hbl⟩ := boolIfPresent_getD ekvs "levertTerug" hl
  unfold isOnKeyChain
  simp only [pyGet, hmt, Bool.and_false, Bool.false_eq_true, if_false,
    hbc, hbt, hbl, Except.map]
  split_ifs <;> simp

theorem isOnKeyChain_meters_ok (key : String) (ekvs mkvs : List (String × JVal))
    (mrest : List JVal)
    (hc : boolIfPresent ekvs "contract" = true)
    (ht : boolIfPresent ekvs "toestemmingVoorUitlezen" = true)
    (hl : boolIfPresent ekvs "levertTerug" = true)
    (hsm : boolIfPresent mkvs "slimmeMeter" = true)
    (hgt : boolIfPresent mkvs "geschiktVoorTerugleveren" = true)
    (hgd : boolIfPresent mkvs "geschiktVoorDubbeltarief" = true) :
    isOnKeyChain key (.obj ekvs) (.arr (.obj mkvs :: mrest)) = .ok (.cont ()) ∨
      ∃ b, isOnKeyChain key (.obj ekvs) (.arr (.obj mkvs :: mrest)) =
        .ok (.ret (.bool b)) := by
  obtain ⟨bc, hbc⟩ := boolIfPresent_getD ekvs "contract" hc
  obtain ⟨bt, hbt⟩ := boolIfPresent_getD ekvs "toestemmingVoorUitlezen" ht
  obtain ⟨bl, hbl⟩ := boolIfPresent_getD ekvs "levertTerug" hl
  obtain ⟨b1, hb1⟩ := boolIfPresent_getD mkvs "slimmeMeter" hsm
  obtain ⟨b2, hb2⟩ := boolIfPresent_getD mkvs "geschiktVoorTerugleveren" hgt
  obtain ⟨b3, hb3⟩ := boolIfPresent_getD mkvs "geschiktVoorDubbeltarief" hgd
  have hmt : truthy (JVal.arr (.obj mkvs :: mrest)) = true := rfl
  unfold isOnKeyChain
  simp only [pyGet, pyIndexZero, hmt, Bool.and_true,
    hbc, hbt, hbl, hb1, hb2, hb3, Except.map]
  split_ifs <;> simp

theorem isOnStep_ok (key : String) (account : JVal) (h : wfAccount account = true) :
    isOnStep key account = .ok (.cont ()) ∨ ∃ b, isOnStep key account = .ok (.ret (.bool b)) := by
  cases account with
  | null => simp [wfAccount] at h
  | bool b => simp [wfAccount] at h
  | num n => simp [wfAccount] at h
  | str s => simp [wfAccount] at h
  | arr xs => simp [wfAccount] at h
  | obj kvs =>
    unfold isOnStep
    simp only [wfAccount] at h
    cases ha : kvs.lookup "aansluitingen" with
    | none => left; simp [pyGet, ha, truthy]
    | some v =>
      rw [ha] at h
      cases v with
      | null => simp at h
      | bool b => simp at h
      | num n => simp at h
      | str s => simp at h
      | arr ys => simp at h
      | obj kvs2 =>
        simp only [pyGet, ha, Option.getD_some] at h ⊢
        cases hel : kvs2.lookup "elektra" with
        | none => left; simp [hel, truthy]
        | some ev =>
          rw [hel] at h
          simp only [Option.getD_some] at h
          cases ev with
          | null => simp [wfElektraList] at h
          | bool b => simp [wfElektraList] at h
          | num n => simp [wfElektraList] at h
          | str s => simp [wfElektraList] at h
          | obj zs => simp [wfElektraList] at h
          | arr es =>
            cases es with
            | nil => left; simp [hel, truthy]
            | cons e erest =>
              simp only [wfElektraList] at h
              cases e with
              | null => simp [wfElektra0] at h
              | bool b => simp [wfElektra0] at h
              | num n => simp [wfElektra0] at h
              | str s => simp [wfElektra0] at h
              | arr zs => simp [wfElektra0] at h
              | obj ekvs =>
                simp only [wfElektra0, Bool.and_eq_true] at h
                obtain ⟨⟨⟨hm, hcontract⟩, htoest⟩, hlevert⟩ := h
                have htr : truthy (JVal.arr (JVal.obj ekvs :: erest)) = true := rfl
                simp only [hel, Option.getD_some, htr, if_true, pyIndexZero, pyGet]
                cases hml : ekvs.lookup "meters" with
                | none =>
                  simp only [hml, Option.getD_none]
                  exact isOnKeyChain_falsy_meters_ok key ekvs (.arr []) rfl
                    hcontract htoest hlevert
                | some mv =>
                  rw [hml] at hm
                  simp only [Option.getD_some] at hm
                  simp only [hml, Option.getD_some]
                  cases mv with
                  | null => simp [wfMeters] at hm
                  | bool b => simp [wfMeters] at hm
                  | num n => simp [wfMeters] at hm
                  | str s => simp [wfMeters] at hm
                  | obj zs => simp [wfMeters] at hm
                  | arr ms =>
                    cases ms with
                    | nil =>
                      exact isOnKeyChain_falsy_meters_ok key ekvs (.arr []) rfl
                        hcontract htoest hlevert
                    | cons m mrest =>
                      simp only [wfMeters] at hm
                      cases m with
                      | null => simp [wfMeter0] at hm
                      | bool b => simp [wfMeter0] at hm
                      | num n => simp [wfMeter0] at hm
                      | str s => simp [wfMeter0] at hm
                      | arr zs => simp [wfMeter0] at hm
                      | obj mkvs =>
                        simp only [wfMeter0, Bool.and_eq_true] at hm
                        obtain ⟨⟨hsm, hgt⟩, hgd⟩ := hm
                        exact isOnKeyChain_meters_ok key ekvs mkvs mrest
                          hcontract htoest hlevert hsm hgt hgd

theorem nativeValueLoop_ok (key : String) (accounts : List JVal) (v0 : JVal)
    (h : ∀ a ∈ accounts, wfAccount a = true) :
    ∃ v, nativeValueLoop key accounts v0 = .ok v := by
  induction accounts generalizing v0 with
  | nil => exact ⟨.null, rfl⟩
  | cons a rest ih =>
    obtain ⟨r, hr⟩ := nativeValueStep_ok key a v0 (h a (by simp))
    cases r with
    | ret rv => exact ⟨rv, by simp [nativeValueLoop, hr]⟩
    | cont v1 =>
      obtain ⟨v, hv⟩ := ih v1 (fun x hx => h x (List.mem_cons_of_mem _ hx))
      exact ⟨v, by simp [nativeValueLoop, hr, hv]⟩

theorem isOnLoop_ok (key : String) (accounts : List JVal)
    (h : ∀ a ∈ accounts, wfAccount a = true) :
    ∃ b, isOnLoop key accounts = .ok (.bool b) := by
  induction accounts with
  | nil => exact ⟨false, rfl⟩
  | cons a rest ih =>
    rcases isOnStep_ok key a (h a (by simp)) with hc | ⟨b, hb⟩
    · obtain ⟨b, hbv⟩ := ih (fun x hx => h x (List.mem_cons_of_mem _ hx))
      exact ⟨b, by simp [isOnLoop, hc, hbv]⟩
    · exact ⟨b, by simp [isOnLoop, hb]⟩

/-- C10 amended: for every coordinator data value that is None, an empty
list, or a list of records that are dicts whose nested container fields
(when present) have their expected types and whose binary flags (when
present) are booleans — which covers missing and empty fields, since all
record access uses defaulted lookups — `native_value` totally evaluates
to a value or None and `is_on` totally evaluates to a boolean defaulting
to False; neither raises. On a record with a wrongly-typed field (for
example aansluitingen bound to 5) both properties raise. -/
theorem sensors_total_on_wellformed_data (key : String) (data : JVal)
    (h : wfData data = true) :
    (∃ v, native_value key data = .ok v) ∧ (∃ b, is_on key data = .ok (.bool b)) := by
  cases data with
  | null => exact ⟨⟨.null, rfl⟩, ⟨false, rfl⟩⟩
  | bool b => simp [wfData] at h
  | num n => simp [wfData] at h
  | str s => simp [wfData] at h
  | obj kvs => simp [wfData] at h
  | arr accounts =>
    simp only [wfData, List.all_eq_true] at h
    cases accounts with
    | nil => exact ⟨⟨.null, rfl⟩, ⟨false, rfl⟩⟩
    | cons a rest =>
      have htr : truthy (.arr (a :: rest)) = true := by simp [truthy]
      obtain ⟨v, hv⟩ := nativeValueLoop_ok key (a :: rest) .null (fun x hx => h x hx)
      obtain ⟨b, hb⟩ := isOnLoop_ok key (a :: rest) (fun x hx => h x hx)
      exact ⟨⟨v, by simp [native_value, htr, pyIter, hv]⟩,
             ⟨b, by simp [is_on, htr, pyIter, hb]⟩⟩

/-- Witness for the amended C10 on the `example_data` fixture. -/
theorem sensors_total_on_wellformed_data_witness :
    (∃ v, native_value "status" example_data = .ok v) ∧
    (∃ b, is_on "status" example_data = .ok (.bool b)) :=
  sensors_total_on_wellformed_data "status" example_data rfl

theorem timeoutValidator_error (t : Int) (hr : ¬(1 ≤ t ∧ t ≤ 30)) :
    ∃ m, timeoutValidator t = .error m := by
  unfold timeoutValidator positive_int
  by_cases h0 : 0 ≤ t
  · simp only [h0, if_true]
    rw [if_neg hr]
    exact ⟨_, rfl⟩
  · simp only [h0, if_false]
    exact ⟨_, rfl⟩

theorem timeoutValidator_ok (t t2 : Int) (h : timeoutValidator t = .ok t2) :
    t2 = t ∧ 1 ≤ t ∧ t ≤ 30 := by
  unfold timeoutValidator positive_int at h
  by_cases h0 : 0 ≤ t
  · simp only [h0, if_true] at h
    by_cases hr : 1 ≤ t ∧ t ≤ 30
    · rw [if_pos hr] at h
      simp only [Except.ok.injEq] at h
      exact ⟨h.symm, hr⟩
    · rw [if_neg hr] at h
      exact absurd h (by simp)
  · simp only [h0, if_false] at h
    exact absurd h (by simp)

/-- C8: the input schema accepts a timeout value only when it lies
between 1 and 30 inclusive, and defaults it to 5 when the field is
omitted; for every input whose timeout lies outside that range, schema
validation fails and `async_step_user` reports the invalid-input error
instead of creating an entry, whatever the login validation says. -/
theorem config_flow_timeout_bounded (inp : UserInput) :
    (∀ t, inp.timeout = some t → ¬(1 ≤ t ∧ t ≤ 30) →
      (∃ m, STEP_USER_DATA_SCHEMA inp = .error m) ∧
      ∀ validation cfg, async_step_user (some inp) validation cfg =
        .showForm [("base", "invalid_input")]) ∧
    (∀ v, STEP_USER_DATA_SCHEMA inp = .ok v →
      (inp.timeout = none → v.timeout = 5) ∧
      (∀ t, inp.timeout = some t → v.timeout = t ∧ 1 ≤ t ∧ t ≤ 30)) := by
  constructor
  · intro t ht hrange
    obtain ⟨m, hm⟩ := timeoutValidator_error t hrange
    have hsch : ∃ m2, STEP_USER_DATA_SCHEMA inp = .error m2 := by
      unfold STEP_USER_DATA_SCHEMA
      cases hu : inp.username with
      | none => exact ⟨_, rfl⟩
      | some u =>
        cases hp : inp.password with
        | none => exact ⟨_, rfl⟩
        | some p =>
          rw [ht]
          simp only [hm]
          exact ⟨_, rfl⟩
    obtain ⟨m2, hm2⟩ := hsch
    refine ⟨⟨m2, hm2⟩, ?_⟩
    intro validation cfg
    unfold async_step_user
    simp only [hm2]
  · intro v hv
    unfold STEP_USER_DATA_SCHEMA at hv
    cases hu : inp.username with
    | none => rw [hu] at hv; exact absurd hv (by simp)
    | some u =>
      rw [hu] at hv
      cases hp : inp.password with
      | none => rw [hp] at hv; exact absurd hv (by simp)
      | some p =>
        rw [hp] at hv
        cases htm : inp.timeout with
        | none =>
          rw [htm] at hv
          simp only [Except.ok.injEq] at hv
          subst hv
          exact ⟨fun _ => rfl, fun t htt => absurd htt (by simp)⟩
        | some t =>
          rw [htm] at hv
          cases hval : timeoutValidator t with
          | error m => simp [hval] at hv
          | ok t2 =>
            simp only [hval, Except.ok.injEq] at hv
            subst hv
            obtain ⟨ht2, hr⟩ := timeoutValidator_ok t t2 hval
            refine ⟨fun hn => absurd hn (by simp), fun t3 ht3 => ?_⟩
            simp only [Option.some.injEq] at ht3
            subst ht3
            exact ⟨ht2, hr⟩

/-- Witness for C8: timeout 31 is rejected with the invalid-input form,
and an omitted timeout defaults to 5. -/
theorem config_flow_timeout_bounded_witness :
    async_step_user (some ⟨some "u", some "p", some 31⟩) (.success "jwt") false =
      .showForm [("base", "invalid_input")] ∧
    (ValidatedInput.mk "u" "p" 5).timeout = 5 :=
  ⟨((config_flow_timeout_bounded ⟨some "u", some "p", some 31⟩).1 31 rfl
      (by decide)).2 (.success "jwt") false,
   ((config_flow_timeout_bounded ⟨some "u", some "p", none⟩).2 ⟨"u", "p", 5⟩ rfl).1 rfl⟩

end MijnLiander
